import Mathlib

/-!
Verification development for the employee check-in system
(`src/employee_checkin.py`).

The Python source is shallowly embedded: pure fragments become Lean
functions, the Streamlit/file-system/Google-Sheets effects become explicit
state passing (the local time-entries file is a `FileRead` value, the remote
mirror a list of rows, user-facing reports an effect trace).  The TOTP
validation performed by the external `onetimepass` library is not part of
the repository source and is modelled from the specification where marked.
-/

namespace EmployeeCheckin

set_option maxRecDepth 1000000

/-! ## Decimal strings, modelling Python `str(n)`, `str.zfill`, `int(s)` -/

/-- The ASCII character of a decimal digit, `0 ↦ '0'`, …, `9 ↦ '9'`. -/
def decDigitChar (d : Nat) : Char := Char.ofNat (48 + d)

/-- Little-endian decimal digits of `n`, with explicit fuel so that the
recursion is structural and kernel-reducible; `decDigitsLE` supplies
enough fuel, and agrees with `Nat.digits 10`. -/
def decDigitsAux : Nat → Nat → List Nat
  | 0, _ => []
  | _ + 1, 0 => []
  | fuel + 1, n + 1 => (n + 1) % 10 :: decDigitsAux fuel ((n + 1) / 10)

/-- Little-endian decimal digits of `n` (`[]` for 0). -/
def decDigitsLE (n : Nat) : List Nat := decDigitsAux n n

theorem decDigitsAux_eq_digits (fuel n : Nat) (h : n ≤ fuel) :
    decDigitsAux fuel n = Nat.digits 10 n := by
  induction fuel generalizing n with
  | zero =>
      have : n = 0 := Nat.le_zero.mp h
      subst this
      simp [decDigitsAux]
  | succ f ih =>
      match n with
      | 0 => simp [decDigitsAux]
      | m + 1 =>
          have hdiv : (m + 1) / 10 ≤ f := by
            have := Nat.div_lt_self (Nat.succ_pos m) (by norm_num : 1 < 10)
            omega
          rw [decDigitsAux, ih _ hdiv, Nat.digits_def' (by norm_num : 1 < 10) (Nat.succ_pos m)]

theorem decDigitsLE_eq_digits (n : Nat) : decDigitsLE n = Nat.digits 10 n :=
  decDigitsAux_eq_digits n n (Nat.le_refl n)

/-- Decimal digit characters of `n`, most significant first; `[]` for 0. -/
def decCharsRaw (n : Nat) : List Char := (decDigitsLE n).reverse.map decDigitChar

/-- Characters of Python `str(n)` for a natural number `n`. -/
def pyStrChars (n : Nat) : List Char := if n = 0 then ['0'] else decCharsRaw n

/-- Python `str(n)` for a natural number `n`. -/
def pyStr (n : Nat) : String := ⟨pyStrChars n⟩

/-- Left-pad a character list with `'0'` to width `w`, as Python `str.zfill`. -/
def zfillChars (w : Nat) (l : List Char) : List Char := List.replicate (w - l.length) '0' ++ l

/-- ASCII model of Python `str.isdigit` (all strings in this system are ASCII). -/
def pyIsDigit (c : Char) : Bool := 48 ≤ c.toNat && c.toNat ≤ 57

/-- One step of Python `int(s)` over a decimal string: accumulate a digit. -/
def parseStep (a : Nat) (c : Char) : Nat := 10 * a + (c.toNat - 48)

/-- The numeric value Python `int(s)` gives to a string of decimal digits. -/
def tokenVal (s : String) : Nat := s.data.foldl parseStep 0

theorem decDigitChar_toNat {d : Nat} (h : d < 10) : (decDigitChar d).toNat = 48 + d := by
  unfold decDigitChar
  interval_cases d <;> rfl

theorem decDigitChar_isDigit {d : Nat} (h : d < 10) : pyIsDigit (decDigitChar d) = true := by
  simp [pyIsDigit, decDigitChar_toNat h]
  omega

theorem decDigitChar_ne_dot {d : Nat} (h : d < 10) : decDigitChar d ≠ '.' := by
  intro hc
  have : (decDigitChar d).toNat = 46 := by rw [hc]; rfl
  rw [decDigitChar_toNat h] at this
  omega

theorem foldl_parseStep_digits (l : List Nat) (hl : ∀ d ∈ l, d < 10) (a : Nat) :
    (l.reverse.map decDigitChar).foldl parseStep a = a * 10 ^ l.length + Nat.ofDigits 10 l := by
  induction l generalizing a with
  | nil => simp [Nat.ofDigits]
  | cons d t ih =>
      have hd : d < 10 := hl d (List.mem_cons_self d t)
      have ht : ∀ x ∈ t, x < 10 := fun x hx => hl x (List.mem_cons_of_mem d hx)
      simp only [List.reverse_cons, List.map_append, List.foldl_append, List.map_cons,
        List.map_nil, List.foldl_cons, List.foldl_nil, ih ht a]
      simp only [parseStep, decDigitChar_toNat hd, Nat.ofDigits_cons, List.length_cons]
      ring_nf
      omega

theorem foldl_parseStep_zeros (k : Nat) (l : List Char) :
    (List.replicate k '0' ++ l).foldl parseStep 0 = l.foldl parseStep 0 := by
  induction k with
  | zero => simp
  | succ n ih => simpa [List.replicate_succ, parseStep] using ih

theorem digits_len_le_of_lt {n k : Nat} (h : n < 10 ^ k) : (Nat.digits 10 n).length ≤ k := by
  by_contra hgt
  push_neg at hgt
  have h1 : 10 ^ k ≤ 10 ^ (Nat.digits 10 n).length - 10 ^ k * 0 := by
    simp
    exact Nat.pow_le_pow_right (by norm_num) (Nat.le_of_lt hgt)
  have h2 : n < 10 ^ (Nat.digits 10 n).length := Nat.lt_base_pow_length_digits (by norm_num)
  have h3 : 10 ^ (Nat.digits 10 n).length ≤ n + 1 + (10 ^ (Nat.digits 10 n).length - 1) := by
    omega
  have hk : 10 ^ k ≤ n := by
    by_contra hn
    push_neg at hn
    have := Nat.le_digits_len_le 10 n (10 ^ k - 1) (by omega)
    have hlen : (Nat.digits 10 (10 ^ k - 1)).length ≤ k := by
      rcases Nat.eq_zero_or_pos k with hk0 | hkpos
      · subst hk0; simp
      · have hne : 10 ^ k - 1 ≠ 0 := by
          have : 10 ≤ 10 ^ k := by
            calc 10 = 10 ^ 1 := (pow_one 10).symm
            _ ≤ 10 ^ k := Nat.pow_le_pow_right (by norm_num) hkpos
          omega
        rw [Nat.digits_len 10 _ (by norm_num) hne]
        have : Nat.log 10 (10 ^ k - 1) < k := by
          apply Nat.log_lt_of_lt_pow hne
          omega
        omega
    omega
  omega

/-! ## The Python `datetime` fragment used by the source -/

/-- A Python `datetime.datetime` value (naive, as the source uses them). -/
structure PyDatetime where
  year : Nat
  month : Nat
  day : Nat
  hour : Nat
  minute : Nat
  second : Nat
  microsecond : Nat
deriving DecidableEq

/-- Gregorian leap-year test, as `datetime` uses. -/
def isLeap (y : Nat) : Bool := (y % 4 == 0 && y % 100 != 0) || (y % 400 == 0)

/-- Number of days in a month, as `datetime` validates. -/
def daysInMonth (y m : Nat) : Nat :=
  if m = 2 then (if isLeap y then 29 else 28)
  else if m = 4 ∨ m = 6 ∨ m = 9 ∨ m = 11 then 30
  else 31

/-- Characters of a number left-zero-padded to width `w` (Python `%0wd`). -/
def padChars (w n : Nat) : List Char := zfillChars w (pyStrChars n)

/-- Characters of `datetime.isoformat()`: `YYYY-MM-DDTHH:MM:SS`, with a
`.ffffff` microsecond suffix exactly when the microsecond field is nonzero. -/
def isoformatChars (d : PyDatetime) : List Char :=
  padChars 4 d.year ++ ['-'] ++ padChars 2 d.month ++ ['-'] ++ padChars 2 d.day ++ ['T'] ++
    padChars 2 d.hour ++ [':'] ++ padChars 2 d.minute ++ [':'] ++ padChars 2 d.second ++
    (if d.microsecond = 0 then [] else ['.'] ++ padChars 6 d.microsecond)

/-- Python `datetime.isoformat()` on a naive datetime. -/
def isoformat (d : PyDatetime) : String := ⟨isoformatChars d⟩

/-- Value of one decimal digit character, if it is one. -/
def digitVal (c : Char) : Option Nat := if pyIsDigit c then some (c.toNat - 48) else none

/-- Two-digit field of an ISO timestamp. -/
def twoDigits (a b : Char) : Option Nat :=
  match digitVal a, digitVal b with
  | some x, some y => some (10 * x + y)
  | _, _ => none

/-- Four-digit field of an ISO timestamp. -/
def fourDigits (a b c d : Char) : Option Nat :=
  match twoDigits a b, twoDigits c d with
  | some x, some y => some (100 * x + y)
  | _, _ => none

/-- Fractional-second suffix of an ISO timestamp: exactly 3 or 6 digits,
giving microseconds, as `datetime.fromisoformat` accepts. -/
def parseFraction : List Char → Option Nat
  | [a, b, c] =>
      match digitVal a, digitVal b, digitVal c with
      | some x, some y, some z => some ((100 * x + 10 * y + z) * 1000)
      | _, _, _ => none
  | [a, b, c, d, e, f] =>
      match twoDigits a b, twoDigits c d, twoDigits e f with
      | some x, some y, some z => some (x * 10000 + y * 100 + z)
      | _, _, _ => none
  | _ => none

/-- Time-of-day part of an ISO timestamp (after the date): empty, or a
separator (`T` or space) followed by `HH:MM`, `HH:MM:SS`, or
`HH:MM:SS.fff(fff)`, with the ranges `datetime` enforces. -/
def parseTimePart : List Char → Option (Nat × Nat × Nat × Nat)
  | [] => some (0, 0, 0, 0)
  | sep :: rest =>
      if sep = 'T' ∨ sep = ' ' then
        match rest with
        | h1 :: h2 :: ':' :: m1 :: m2 :: rest2 =>
            match twoDigits h1 h2, twoDigits m1 m2 with
            | some h, some mi =>
                if h ≤ 23 ∧ mi ≤ 59 then
                  match rest2 with
                  | [] => some (h, mi, 0, 0)
                  | ':' :: s1 :: s2 :: rest3 =>
                      match twoDigits s1 s2 with
                      | some se =>
                          if se ≤ 59 then
                            match rest3 with
                            | [] => some (h, mi, se, 0)
                            | '.' :: frac =>
                                match parseFraction frac with
                                | some us => some (h, mi, se, us)
                                | none => none
                            | _ => none
                          else none
                      | none => none
                  | _ => none
                else none
            | _, _ => none
        | _ => none
      else none

/-- Python `datetime.fromisoformat`, on the grammar the source can feed it:
`YYYY-MM-DD` optionally followed by a time-of-day part.  Returns `none`
exactly where Python raises `ValueError` (malformed text or out-of-range
components). -/
def fromisoformat (s : String) : Option PyDatetime :=
  match s.data with
  | y1 :: y2 :: y3 :: y4 :: '-' :: m1 :: m2 :: '-' :: d1 :: d2 :: rest =>
      match fourDigits y1 y2 y3 y4, twoDigits m1 m2, twoDigits d1 d2 with
      | some y, some mo, some da =>
          if 1 ≤ y ∧ y ≤ 9999 ∧ 1 ≤ mo ∧ mo ≤ 12 ∧ 1 ≤ da ∧ da ≤ daysInMonth y mo then
            match parseTimePart rest with
            | some (h, mi, se, us) => some ⟨y, mo, da, h, mi, se, us⟩
            | none => none
          else none
      | _, _, _ => none
  | _ => none

/-- Three-letter English month abbreviation, as `strftime` `%b` in the C locale. -/
def monthAbbrev (m : Nat) : List Char :=
  if m = 1 then ['J', 'a', 'n'] else if m = 2 then ['F', 'e', 'b']
  else if m = 3 then ['M', 'a', 'r'] else if m = 4 then ['A', 'p', 'r']
  else if m = 5 then ['M', 'a', 'y'] else if m = 6 then ['J', 'u', 'n']
  else if m = 7 then ['J', 'u', 'l'] else if m = 8 then ['A', 'u', 'g']
  else if m = 9 then ['S', 'e', 'p'] else if m = 10 then ['O', 'c', 't']
  else if m = 11 then ['N', 'o', 'v'] else if m = 12 then ['D', 'e', 'c']
  else []

/-- 12-hour clock figure for `strftime` `%I`: 0 and 12 print as 12. -/
def hour12 (h : Nat) : Nat := if h % 12 = 0 then 12 else h % 12

/-- `strftime("%b %d %I:%M %p")`, the friendly timestamp of a mirror row. -/
def friendlyTs (d : PyDatetime) : String :=
  ⟨monthAbbrev d.month ++ [' '] ++ padChars 2 d.day ++ [' '] ++ padChars 2 (hour12 d.hour) ++
    [':'] ++ padChars 2 d.minute ++ [' '] ++
    (if d.hour < 12 then ['A', 'M'] else ['P', 'M'])⟩

/-- Python `str.capitalize`: first character upper-cased, the rest lower-cased
(ASCII case mapping, which covers every string this system builds). -/
def pyCapitalize (s : String) : String :=
  match s.data with
  | [] => ""
  | c :: rest => ⟨c.toUpper :: rest.map Char.toLower⟩

/-! ## Data model: employees, time entries, the two JSON files -/

/-- A value of the employee directory `employee_data.json`:
`id ↦ {name, totpSecret}`. -/
structure Employee where
  name : String
  totpSecret : String
deriving DecidableEq

/-- One element of the time-entries log `time_entries.json`. -/
structure TimeEntry where
  employeeId : String
  timestamp : String
  type : String
deriving DecidableEq

/-- The employee directory as a keyed record store (Python `dict`). -/
def EmployeeDir := List (String × Employee)

/-- `employee_data.get(id, {}).get("name", "Unknown")` from the row builder. -/
def lookupName (ed : EmployeeDir) (eid : String) : String :=
  match List.lookup eid ed with
  | some e => e.name
  | none => "Unknown"

/-- What reading and JSON-decoding one of the two backing files can yield:
the file is absent (`FileNotFoundError`), present but not valid JSON
(`json.JSONDecodeError`), or decodes to a value. -/
inductive FileRead (α : Type) where
  | missing
  | badJson
  | ok (v : α)
deriving DecidableEq

/-- Result of a load: the value handed back to the caller, plus whether a
JSON-decode error message was displayed (`st.error`).  The embedding is a
total function because every branch of the Python function returns
normally — neither load ever raises to its caller. -/
structure LoadResult (α : Type) where
  value : α
  decodeErrorShown : Bool
deriving DecidableEq

/-- `load_time_entries`: `[]` when the file is missing; on undecodable JSON it
shows an error message and still returns `[]` to the caller. -/
def load_time_entries : FileRead (List TimeEntry) → LoadResult (List TimeEntry)
  | .missing => ⟨[], false⟩
  | .badJson => ⟨[], true⟩
  | .ok v => ⟨v, false⟩

/-- `load_employee_data`: `{}` when the file is missing; on undecodable JSON it
shows an error message and still returns `{}` to the caller. -/
def load_employee_data : FileRead EmployeeDir → LoadResult EmployeeDir
  | .missing => ⟨[], false⟩
  | .badJson => ⟨[], true⟩
  | .ok v => ⟨v, false⟩

/-! ## Sync engine: `sync_to_google_sheets` -/

/-- The header row staged when the sheet is empty. -/
def headerRow : List String := ["Employee ID", "Employee Name", "Timestamp", "Type"]

/-- The per-entry `try` block of `sync_to_google_sheets`: format the timestamp
and capitalize the type; if the timestamp does not parse (Python
`ValueError` from `fromisoformat`), fall back to the raw field values for
this row only. -/
def formatEntry (e : TimeEntry) : String × String :=
  match fromisoformat e.timestamp with
  | some ts => (friendlyTs ts, pyCapitalize e.type)
  | none => (e.timestamp, e.type)

/-- One mirror row for one entry:
`[employeeId, name-or-Unknown, friendly-or-raw timestamp, capitalized-or-raw type]`. -/
def buildRow (ed : EmployeeDir) (e : TimeEntry) : List String :=
  [e.employeeId, lookupName ed e.employeeId, (formatEntry e).1, (formatEntry e).2]

/-- Outcome of one `sync_to_google_sheets` call: the `(success, message)` pair
it returns, whether the append API call was made, and the row block it sent. -/
structure SyncOutcome where
  success : Bool
  message : String
  appendCalled : Bool
  staged : List (List String)
deriving DecidableEq

/-- `sync_to_google_sheets(config, time_entries, employee_data)`.

The remote sheet is passed in as `mirror`, the rows its read returns; the
append call's network outcome is abstracted by `appendOk` (with `appendErr`
the exception text when it fails), since the Google client is an external
collaborator.  Faithful to the source: a header is staged iff the sheet read
came back empty; every entry yields exactly one row through `buildRow`; if
nothing beyond a potential header was staged the function returns success
with a nothing-to-do message before any append call; otherwise it appends
the staged block in one batch and reports `(True, "Synced …")` or, when the
call raises, `(False, "Error syncing to Google Sheets: …")`. -/
def sync_to_google_sheets (mirror : List (List String)) (time_entries : List TimeEntry)
    (employee_data : EmployeeDir) (appendOk : Bool) (appendErr : String) : SyncOutcome :=
  let is_empty := mirror.isEmpty
  let values_to_send : List (List String) :=
    (if is_empty then [headerRow] else []) ++ time_entries.map (buildRow employee_data)
  if values_to_send.length = (if is_empty then 1 else 0) then
    ⟨true, "No new entries to sync.", false, []⟩
  else if appendOk then
    ⟨true, "Synced " ++ pyStr time_entries.length ++ " entries to Google Sheets.",
      true, values_to_send⟩
  else
    ⟨false, "Error syncing to Google Sheets: " ++ appendErr, true, values_to_send⟩

/-- The remote mirror contents after a sync call: the staged block lands only
when the append call was made and did not raise. -/
def mirrorAfterSync (mirror : List (List String)) (o : SyncOutcome) : List (List String) :=
  if o.appendCalled && o.success then mirror ++ o.staged else mirror

/-! ## Attendance service: `handle_entry` and the check-in/out buttons -/

/-- One user-visible or externally-visible step of `handle_entry`, in program
order: the local save (with the exact list written), the call into
`sync_to_google_sheets`, and the reports shown to the user. -/
inductive Effect where
  | saveLocal (log : List TimeEntry)
  | syncCall (entries : List TimeEntry)
  | reportSuccess (msg : String)
  | reportWarning (msg : String)
  | reportError (msg : String)
deriving DecidableEq

/-- What a completed `handle_entry` run did. -/
structure HandleResult where
  entry : TimeEntry
  savedLog : List TimeEntry
  trace : List Effect
deriving DecidableEq

/-- `handle_entry(employee_id, entry_type, config, employee_data)`.

`now` stands for `datetime.now()`, `localFile` for the current state of
`time_entries.json`, `mirror`/`appendOk`/`appendErr` for the remote sheet as
in `sync_to_google_sheets`.  The trace records, in program order: the write
of the extended local log, then the sync call over just the new entry, then
the user report — success, or a warning that the entry was recorded locally
but the online sync failed, followed by the sync error text. -/
def handle_entry (employee_id entry_type : String) (now : PyDatetime)
    (localFile : FileRead (List TimeEntry)) (mirror : List (List String))
    (employee_data : EmployeeDir) (appendOk : Bool) (appendErr : String) : HandleResult :=
  let timestamp := isoformat now
  let entry : TimeEntry := ⟨employee_id, timestamp, entry_type⟩
  let time_entries := (load_time_entries localFile).value ++ [entry]
  let o := sync_to_google_sheets mirror [entry] employee_data appendOk appendErr
  ⟨entry, time_entries,
    [Effect.saveLocal time_entries, Effect.syncCall [entry]] ++
      (if o.success then [Effect.reportSuccess "Check-in/out recorded and synced to Google Sheets."]
       else [Effect.reportWarning "Check-in/out has been recorded locally, but the online sync failed.",
             Effect.reportError o.message])⟩

/-- Outcome of pressing Check In / Check Out in the non-admin view. -/
inductive CheckOutcome where
  | rejectedInvalidOrEmpty
  | crashedTypeError
deriving DecidableEq

/-- Effect summary of one check button press: the write to
`time_entries.json` if any, whether a sync was attempted, and how the
attempt ended. -/
structure CheckResult where
  fileWrite : Option (List TimeEntry)
  syncAttempted : Bool
  outcome : CheckOutcome
deriving DecidableEq

/-- The guard of the Check In / Check Out buttons:
`if totp_token and onetimepass.valid_totp(totp_token, secret): handle_entry(...)
else: st.error("Invalid or empty code.")`.

`tokenAccepted` stands for the value of `onetimepass.valid_totp(totp_token,
employee_data[employee_id]["totpSecret"])`.  An empty token short-circuits
before the library call (Python truthiness).  On a rejected attempt the
error message is shown and nothing else happens.  On an accepted attempt the
source calls `handle_entry` with three positional arguments while its
definition takes four, so Python raises `TypeError` at the call site before
the body runs: no local write and no sync occur on that path either. -/
def checkAction (totp_token : String) (tokenAccepted : Bool) : CheckResult :=
  if (!(totp_token == "")) && tokenAccepted then
    ⟨none, false, CheckOutcome.crashedTypeError⟩
  else
    ⟨none, false, CheckOutcome.rejectedInvalidOrEmpty⟩

/-! ## Admin full re-sync page -/

/-- Number of parameters of the `get_google_sheets_service` binding visible
when `main` runs: the module defines the name twice and the later,
one-parameter definition (line 60) shadows the zero-parameter one (line 17). -/
def get_google_sheets_service_paramCount : Nat := 1

/-- The call `get_google_sheets_service()` on the full re-sync page, made with
zero arguments: Python raises `TypeError` before the function body runs,
because the surviving binding requires a `config` argument. -/
def serviceCallNoArgs : Except String Unit :=
  if get_google_sheets_service_paramCount = 0 then Except.ok ()
  else Except.error "TypeError: get_google_sheets_service missing 1 required positional argument: config"

/-- Outcome of the Sync-to-Google-Sheets admin page. -/
inductive ResyncOutcome where
  | logEmptyInfo
  | errorDuringFullSync (exnText : String)
  | clearedAndSynced (success : Bool) (message : String)
deriving DecidableEq

/-- Mirror state and report after the admin page runs. -/
structure ResyncResult where
  mirror : List (List String)
  outcome : ResyncOutcome
deriving DecidableEq

/-- The full re-sync admin action (`main`, Sync-to-Google-Sheets page, button
pressed when the log is non-empty).  Faithful to the source: it loads the
local log; if the log is empty it only shows an info message; otherwise the
`try` block first evaluates `get_google_sheets_service()`, whose `TypeError`
jumps to the `except` branch before the `clear` call, leaving the mirror
untouched.  The unreachable `.ok` arm records what the rest of the block
would do: clear, then call `sync_to_google_sheets(time_entries,
employee_data)` — itself a three-parameter function called with two
arguments, another `TypeError` into the same `except` branch. -/
def fullResyncAction (mirror : List (List String)) (localFile : FileRead (List TimeEntry))
    (_employee_data : EmployeeDir) : ResyncResult :=
  let time_entries := (load_time_entries localFile).value
  if time_entries.isEmpty then ⟨mirror, ResyncOutcome.logEmptyInfo⟩
  else
    match serviceCallNoArgs with
    | Except.error e => ⟨mirror, ResyncOutcome.errorDuringFullSync e⟩
    | Except.ok _ =>
        ⟨[], ResyncOutcome.errorDuringFullSync
          "TypeError: sync_to_google_sheets missing 1 required positional argument: employee_data"⟩

/-! ## Provisioning URI -/

/-- Bytes that `urllib.parse.quote` leaves unescaped with its default `safe`
argument: ASCII letters, digits, `_.-~`, and the default-safe `/`. -/
def quoteSafe (b : Nat) : Bool :=
  (65 ≤ b && b ≤ 90) || (97 ≤ b && b ≤ 122) || (48 ≤ b && b ≤ 57) ||
    b == 95 || b == 46 || b == 45 || b == 126 || b == 47

/-- Upper-case hexadecimal digit, as `quote` emits. -/
def hexDigitChar (d : Nat) : Char := if d < 10 then Char.ofNat (48 + d) else Char.ofNat (55 + d)

/-- `quote` on one UTF-8 byte: kept verbatim when safe, else `%XY`. -/
def quoteByte (b : Nat) : List Char :=
  if quoteSafe b then [Char.ofNat b] else ['%', hexDigitChar (b / 16), hexDigitChar (b % 16)]

/-- `urllib.parse.quote(s)` with its default arguments: percent-encode every
UTF-8 byte outside the safe set. -/
def pyQuote (s : String) : String :=
  ⟨(s.data.flatMap (fun c => (String.utf8EncodeChar c).map UInt8.toNat)).flatMap quoteByte⟩

/-- The provisioning URI built on the Add-Employee page:
`otpauth://totp/EmployeeCheckin:{quote(employee_id)}?secret={secret}&issuer=EmployeeCheckin`. -/
def otpProvisioningUri (employee_id secret : String) : String :=
  "otpauth://totp/EmployeeCheckin:" ++ pyQuote employee_id ++ "?secret=" ++ secret ++
    "&issuer=EmployeeCheckin"

/-- The RFC 3986 reserved characters (gen-delims and sub-delims). -/
def reservedUriChar (c : Char) : Bool :=
  [':', '/', '?', '#', '[', ']', '@', '!', '$', '&', Char.ofNat 39,
    '(', ')', '*', '+', ',', ';', '='].contains c

/-! ## TOTP engine

Modelled from the spec: the check buttons call `onetimepass.valid_totp`, a
library whose source is not part of this repository; only its caller is.
Following §4.1 of the spec, `validate` computes the valid code for the
current 30-second time step and, to tolerate clock skew, the immediately
adjacent steps before and after, and compares it with the submitted code;
empty, non-numeric or over-long codes are rejected without raising.  The
code for a step is standard RFC-4226 HOTP over HMAC-SHA1 of the base32
secret, truncated to six decimal digits, as TOTP prescribes.  Bytes are
naturals below 256; 32-bit words are naturals reduced mod `2^32`.
-/

/-- `2^32`, the word modulus of SHA-1 arithmetic. -/
def u32Mod : Nat := 4294967296

/-- Reduce to a 32-bit word. -/
def mask32 (x : Nat) : Nat := x % u32Mod

/-- Left-rotate a 32-bit word by `n` bits. -/
def rotl32 (n x : Nat) : Nat := mask32 ((x <<< n) ||| (x >>> (32 - n)))

/-- Big-endian bytes of a 32-bit word. -/
def wordBytes (w : Nat) : List Nat :=
  [(w >>> 24) % 256, (w >>> 16) % 256, (w >>> 8) % 256, w % 256]

/-- Big-endian 32-bit words of a byte list (groups of four). -/
def wordsOfBytes : List Nat → List Nat
  | a :: b :: c :: d :: rest => ((a <<< 24) ||| (b <<< 16) ||| (c <<< 8) ||| d) :: wordsOfBytes rest
  | _ => []

/-- SHA-1 message padding for a message of `len` bytes: `0x80`, zeros to 56
mod 64, then the bit length as eight big-endian bytes. -/
def sha1Padding (len : Nat) : List Nat :=
  128 :: List.replicate ((120 - (len + 1) % 64) % 64) 0 ++
    [((8 * len) >>> 56) % 256, ((8 * len) >>> 48) % 256, ((8 * len) >>> 40) % 256,
     ((8 * len) >>> 32) % 256, ((8 * len) >>> 24) % 256, ((8 * len) >>> 16) % 256,
     ((8 * len) >>> 8) % 256, (8 * len) % 256]

/-- Split a word list into 16-word blocks (every padded message is an exact
multiple of 16 words; a shorter tail would become a ragged final block). -/
def chunkWords : List Nat → List (List Nat)
  | w1 :: w2 :: w3 :: w4 :: w5 :: w6 :: w7 :: w8 ::
      w9 :: w10 :: w11 :: w12 :: w13 :: w14 :: w15 :: w16 :: rest =>
      [w1, w2, w3, w4, w5, w6, w7, w8, w9, w10, w11, w12, w13, w14, w15, w16] :: chunkWords rest
  | [] => []
  | rest => [rest]

/-- Extend a reversed word list by `n` schedule words (most recent first):
`w[i] = rotl1 (w[i-3] xor w[i-8] xor w[i-14] xor w[i-16])`. -/
def sha1ExtendRev : Nat → List Nat → List Nat
  | 0, acc => acc
  | n + 1, acc =>
      sha1ExtendRev n (rotl32 1 ((acc.getD 2 0) ^^^ (acc.getD 7 0) ^^^ (acc.getD 13 0) ^^^
        (acc.getD 15 0)) :: acc)

/-- The 80-word message schedule of one 16-word block. -/
def sha1Schedule (block : List Nat) : List Nat := (sha1ExtendRev 64 block.reverse).reverse

/-- SHA-1 round function (round `t`, words `b c d`). -/
def sha1F (t b c d : Nat) : Nat :=
  if t < 20 then (b &&& c) ||| ((b ^^^ 4294967295) &&& d)
  else if t < 40 then b ^^^ c ^^^ d
  else if t < 60 then (b &&& c) ||| (b &&& d) ||| (c &&& d)
  else b ^^^ c ^^^ d

/-- SHA-1 round constant for round `t`. -/
def sha1K (t : Nat) : Nat :=
  if t < 20 then 1518500249
  else if t < 40 then 1859775393
  else if t < 60 then 2400959708
  else 3395469782

/-- Run the SHA-1 rounds over the schedule words from round `t`. -/
def sha1Rounds : Nat → List Nat → Nat × Nat × Nat × Nat × Nat → Nat × Nat × Nat × Nat × Nat
  | _, [], st => st
  | t, w :: ws, (a, b, c, d, e) =>
      sha1Rounds (t + 1) ws
        (mask32 (rotl32 5 a + sha1F t b c d + e + sha1K t + w), a, rotl32 30 b, c, d)

/-- Fold the compression function over the blocks. -/
def sha1Blocks : List (List Nat) → Nat × Nat × Nat × Nat × Nat → Nat × Nat × Nat × Nat × Nat
  | [], h => h
  | blk :: rest, (h0, h1, h2, h3, h4) =>
      match sha1Rounds 0 (sha1Schedule blk) (h0, h1, h2, h3, h4) with
      | (a, b, c, d, e) =>
          sha1Blocks rest
            (mask32 (h0 + a), mask32 (h1 + b), mask32 (h2 + c), mask32 (h3 + d), mask32 (h4 + e))

/-- SHA-1 of a byte list, as a 20-byte list. -/
def sha1 (msg : List Nat) : List Nat :=
  match sha1Blocks (chunkWords (wordsOfBytes (msg ++ sha1Padding msg.length)))
      (1732584193, 4023233417, 2562383102, 271733878, 3285377520) with
  | (h0, h1, h2, h3, h4) =>
      wordBytes h0 ++ wordBytes h1 ++ wordBytes h2 ++ wordBytes h3 ++ wordBytes h4

/-- HMAC-SHA1 of a message under a key (RFC 2104, 64-byte block). -/
def hmacSha1 (key msg : List Nat) : List Nat :=
  let k0 := if 64 < key.length then sha1 key else key
  let kp := k0 ++ List.replicate (64 - k0.length) 0
  sha1 ((kp.map (fun b => b ^^^ 92)) ++ sha1 ((kp.map (fun b => b ^^^ 54)) ++ msg))

/-- A counter as eight big-endian bytes (`struct.pack(">Q", c)`). -/
def counterBytes (c : Nat) : List Nat :=
  [(c >>> 56) % 256, (c >>> 48) % 256, (c >>> 40) % 256, (c >>> 32) % 256,
   (c >>> 24) % 256, (c >>> 16) % 256, (c >>> 8) % 256, c % 256]

/-- RFC-4226 HOTP with six digits: HMAC-SHA1, dynamic truncation, mod `10^6`. -/
def hotp (key : List Nat) (counter : Nat) : Nat :=
  let d := hmacSha1 key (counterBytes counter)
  let ob := (d.getD 19 0) &&& 15
  ((((d.getD ob 0) <<< 24) ||| ((d.getD (ob + 1) 0) <<< 16) ||| ((d.getD (ob + 2) 0) <<< 8) |||
      (d.getD (ob + 3) 0)) &&& 2147483647) % 1000000

/-- Value of one RFC-4648 base32 alphabet character (case-folded, as
`base64.b32decode(secret, casefold=True)` accepts). -/
def b32Val (c : Char) : Option Nat :=
  if 65 ≤ c.toNat ∧ c.toNat ≤ 90 then some (c.toNat - 65)
  else if 97 ≤ c.toNat ∧ c.toNat ≤ 122 then some (c.toNat - 97)
  else if 50 ≤ c.toNat ∧ c.toNat ≤ 55 then some (c.toNat - 50 + 26)
  else none

/-- Bytes of one full 8-character base32 group (40 bits). -/
def b32GroupBytes (vs : List Nat) : List Nat :=
  let n := vs.foldl (fun a v => 32 * a + v) 0
  [(n >>> 32) % 256, (n >>> 24) % 256, (n >>> 16) % 256, (n >>> 8) % 256, n % 256]

/-- Decode full base32 groups; `none` on an invalid character or trailing
partial group. -/
def b32DecodeGroups : List Char → Option (List Nat)
  | [] => some []
  | c1 :: c2 :: c3 :: c4 :: c5 :: c6 :: c7 :: c8 :: rest =>
      match b32Val c1, b32Val c2, b32Val c3, b32Val c4,
          b32Val c5, b32Val c6, b32Val c7, b32Val c8 with
      | some v1, some v2, some v3, some v4, some v5, some v6, some v7, some v8 =>
          match b32DecodeGroups rest with
          | some bs => some (b32GroupBytes [v1, v2, v3, v4, v5, v6, v7, v8] ++ bs)
          | none => none
      | _, _, _, _, _, _, _, _ => none
  | _ => none

/-- `base64.b32decode(secret, casefold=True)` on the unpadded multiple-of-8
secrets this system generates and accepts; `none` where Python raises. -/
def b32decode (s : String) : Option (List Nat) := b32DecodeGroups s.data

/-- Modelled from the spec: the six-digit code string the authenticator shows
for a secret key at a time step (HOTP of the step, zero-filled to six
digits, as `onetimepass.get_totp(..., as_string=True)` would produce). -/
def codeStr (key : List Nat) (step : Nat) : String :=
  ⟨zfillChars 6 (pyStrChars (hotp key step))⟩

/-- Token sanity check of the validator: non-empty, at most six characters,
decimal digits only. -/
def is_possible_token (t : String) : Bool :=
  t.length ≤ 6 && t.data.all pyIsDigit && !(t == "")

/-- Modelled from the spec: `validate(code, secret, now)` — reject malformed
tokens without raising, compute the codes of the current 30-second time
step and of the immediately adjacent steps before and after, and accept
exactly when the submitted code matches one of them. -/
def valid_totp (token : String) (secret : String) (clock : Nat) : Bool :=
  match b32decode secret with
  | none => false
  | some key =>
      is_possible_token token &&
        ((tokenVal token == hotp key (clock / 30 - 1)) ||
         (tokenVal token == hotp key (clock / 30)) ||
         (tokenVal token == hotp key (clock / 30 + 1)))

/-! ## Supporting lemmas -/

theorem hotp_lt (key : List Nat) (c : Nat) : hotp key c < 1000000 := by
  dsimp only [hotp]
  exact Nat.mod_lt _ (by norm_num)

theorem pyStrChars_length_le {n : Nat} (h : n < 1000000) : (pyStrChars n).length ≤ 6 := by
  unfold pyStrChars
  by_cases h0 : n = 0
  · simp [h0]
  · simp only [h0, if_false, decCharsRaw, List.length_map, List.length_reverse,
      decDigitsLE_eq_digits]
    exact digits_len_le_of_lt (by norm_num; omega)

theorem pyStrChars_digits (n : Nat) : ∀ c ∈ pyStrChars n, pyIsDigit c = true := by
  intro c hc
  unfold pyStrChars at hc
  by_cases h0 : n = 0
  · simp [h0] at hc
    subst hc
    decide
  · simp only [h0, if_false, decCharsRaw, List.mem_map, List.mem_reverse] at hc
    obtain ⟨d, hd, rfl⟩ := hc
    exact decDigitChar_isDigit
      (Nat.digits_lt_base (by norm_num) (by rw [← decDigitsLE_eq_digits]; exact hd))

theorem tokenVal_codeStr (key : List Nat) (step : Nat) :
    tokenVal (codeStr key step) = hotp key step := by
  show (zfillChars 6 (pyStrChars (hotp key step))).foldl parseStep 0 = hotp key step
  unfold zfillChars
  rw [foldl_parseStep_zeros]
  unfold pyStrChars
  by_cases h0 : hotp key step = 0
  · simp only [h0, if_true]
    decide
  · simp only [h0, if_false, decCharsRaw, decDigitsLE_eq_digits]
    rw [foldl_parseStep_digits _ (fun d hd => Nat.digits_lt_base (by norm_num) hd) 0]
    simp [Nat.ofDigits_digits]

theorem codeStr_possible (key : List Nat) (step : Nat) :
    is_possible_token (codeStr key step) = true := by
  have hlt := hotp_lt key step
  have hlen : (zfillChars 6 (pyStrChars (hotp key step))).length = 6 := by
    unfold zfillChars
    have := pyStrChars_length_le hlt
    simp only [List.length_append, List.length_replicate]
    omega
  unfold is_possible_token codeStr
  refine (Bool.and_eq_true _ _).mpr ⟨(Bool.and_eq_true _ _).mpr ⟨?_, ?_⟩, ?_⟩
  · show decide ((String.mk (zfillChars 6 (pyStrChars (hotp key step)))).length ≤ 6) = true
    simp only [String.length, hlen]
    decide
  · refine List.all_eq_true.mpr ?_
    intro c hc
    rcases List.mem_append.mp hc with h | h
    · have := List.eq_of_mem_replicate h
      subst this
      decide
    · exact pyStrChars_digits _ c h
  · have hne : (String.mk (zfillChars 6 (pyStrChars (hotp key step)))) ≠ "" := by
      intro he
      have : (zfillChars 6 (pyStrChars (hotp key step))).length = 0 := by
        rw [show zfillChars 6 (pyStrChars (hotp key step)) =
          (String.mk (zfillChars 6 (pyStrChars (hotp key step)))).data from rfl, he]
        rfl
      omega
    simp [hne]

theorem dot_not_mem_padChars (w n : Nat) : '.' ∉ padChars w n := by
  unfold padChars zfillChars
  intro hmem
  rcases List.mem_append.mp hmem with h | h
  · have := List.eq_of_mem_replicate h
    exact absurd this (by decide)
  · have := pyStrChars_digits n '.' h
    exact absurd this (by decide)

theorem quoteByte_reserved (b : Nat) (hb : b < 256) :
    ∀ c ∈ quoteByte b, reservedUriChar c = true → c = '/' := by
  revert b
  decide

/-! ## Claims -/

/-- Claim C10: loading either backing file when it does not exist raises nothing
and yields the empty log resp. the empty directory, with no error shown —
a fresh installation starts empty without error. -/
theorem load_missing_defaults :
    load_time_entries FileRead.missing = ⟨[], false⟩ ∧
    load_employee_data FileRead.missing = ⟨[], false⟩ :=
  ⟨rfl, rfl⟩

/-- Claim C2, counterexample: on a time-entries file whose contents do not parse as
JSON, `load_time_entries` does not fail to its caller — it returns the empty
log in place of the unparsable data, refuting the claim that an unparsable
file always surfaces a `StorageCorrupt` failure instead of an empty log. -/
theorem load_corrupt_returns_empty_cex :
    (load_time_entries FileRead.badJson).value = [] :=
  rfl

/-- Claim C2, amended: on unparsable JSON both loaders display a decode-error
message but still return normally with the empty value, so the caller
receives an empty log/directory indistinguishable from a fresh store. -/
theorem load_corrupt_shows_error_returns_empty :
    load_time_entries FileRead.badJson = ⟨[], true⟩ ∧
    load_employee_data FileRead.badJson = ⟨[], true⟩ :=
  ⟨rfl, rfl⟩

/-- Claim C6: incremental sync with an empty entry list against a non-empty mirror
returns success with the nothing-to-do message, makes no append call, and
leaves the mirror unchanged. -/
theorem sync_empty_entries_nothing_to_do (mirror : List (List String)) (ed : EmployeeDir)
    (appendOk : Bool) (appendErr : String) (h : mirror ≠ []) :
    sync_to_google_sheets mirror [] ed appendOk appendErr =
      ⟨true, "No new entries to sync.", false, []⟩ ∧
    mirrorAfterSync mirror (sync_to_google_sheets mirror [] ed appendOk appendErr) = mirror := by
  match mirror with
  | [] => exact absurd rfl h
  | r :: rest => exact ⟨rfl, rfl⟩

theorem sync_empty_entries_nothing_to_do_witness :
    ([["x"]] : List (List String)) ≠ [] ∧
    (sync_to_google_sheets [["x"]] [] [] true "boom" =
        ⟨true, "No new entries to sync.", false, []⟩ ∧
      mirrorAfterSync [["x"]] (sync_to_google_sheets [["x"]] [] [] true "boom") = [["x"]]) :=
  ⟨by decide, sync_empty_entries_nothing_to_do [["x"]] [] true "boom" (by decide)⟩

/-- Claim C4: a check button press whose token is empty, or whose token the TOTP
validator rejects, writes nothing to the time-entries file and attempts no
sync — it only reports the invalid-or-empty-code error. -/
theorem rejected_attempt_frame (totp_token : String) (tokenAccepted : Bool)
    (h : totp_token = "" ∨ tokenAccepted = false) :
    checkAction totp_token tokenAccepted =
      ⟨none, false, CheckOutcome.rejectedInvalidOrEmpty⟩ := by
  rcases h with h | h
  · subst h
    rfl
  · subst h
    simp [checkAction]

theorem rejected_attempt_frame_witness :
    (("" : String) = "" ∨ (true : Bool) = false) ∧
    checkAction "" true = ⟨none, false, CheckOutcome.rejectedInvalidOrEmpty⟩ :=
  ⟨Or.inl rfl, rejected_attempt_frame "" true (Or.inl rfl)⟩

/-- Claim C5: the full re-sync admin action on a non-empty local log neither clears
nor repopulates the mirror: the zero-argument call of the shadowed
one-parameter `get_google_sheets_service` raises `TypeError` inside the
`try` block before the clear call, so the action reports an error and the
mirror is returned unchanged — no replay of the local log occurs. -/
theorem full_resync_noop_bug (mirror : List (List String))
    (localFile : FileRead (List TimeEntry)) (ed : EmployeeDir)
    (h : (load_time_entries localFile).value ≠ []) :
    fullResyncAction mirror localFile ed =
      ⟨mirror, ResyncOutcome.errorDuringFullSync
        "TypeError: get_google_sheets_service missing 1 required positional argument: config"⟩ := by
  unfold fullResyncAction
  have : (load_time_entries localFile).value.isEmpty = false := by
    cases hv : (load_time_entries localFile).value with
    | nil => exact absurd hv h
    | cons a l => rfl
  simp [this, serviceCallNoArgs, get_google_sheets_service_paramCount]

theorem full_resync_noop_bug_witness :
    ((load_time_entries (FileRead.ok [⟨"e1", "2024-01-01T09:00:00", "in"⟩])).value ≠ []) ∧
    fullResyncAction [["old", "row"]] (FileRead.ok [⟨"e1", "2024-01-01T09:00:00", "in"⟩]) [] =
      ⟨[["old", "row"]], ResyncOutcome.errorDuringFullSync
        "TypeError: get_google_sheets_service missing 1 required positional argument: config"⟩ :=
  ⟨by decide, full_resync_noop_bug [["old", "row"]] (FileRead.ok [⟨"e1", "2024-01-01T09:00:00", "in"⟩])
    [] (by decide)⟩

/-- Claim C1: `handle_entry` appends the new entry to the local log and writes that
log before the sync call begins (the save strictly precedes the sync call in
the effect trace); when the sync call returns failure the saved local log
still contains the entry and the user is warned that the entry was recorded
locally but the online sync failed. -/
theorem handle_entry_local_first (employee_id entry_type : String) (now : PyDatetime)
    (localFile : FileRead (List TimeEntry)) (mirror : List (List String)) (ed : EmployeeDir)
    (appendOk : Bool) (appendErr : String) :
    let r := handle_entry employee_id entry_type now localFile mirror ed appendOk appendErr
    r.savedLog = (load_time_entries localFile).value ++ [r.entry] ∧
    (∃ rest, r.trace = Effect.saveLocal r.savedLog :: Effect.syncCall [r.entry] :: rest) ∧
    ((sync_to_google_sheets mirror [r.entry] ed appendOk appendErr).success = false →
      r.entry ∈ r.savedLog ∧
      Effect.reportWarning "Check-in/out has been recorded locally, but the online sync failed."
        ∈ r.trace) := by
  refine ⟨rfl, ⟨_, rfl⟩, fun hf => ⟨List.mem_append_right _ (List.mem_singleton_self _), ?_⟩⟩
  have hf' : (sync_to_google_sheets mirror
      [(⟨employee_id, isoformat now, entry_type⟩ : TimeEntry)] ed appendOk appendErr).success
        = false := hf
  simp [handle_entry, hf']

theorem handle_entry_local_first_witness :
    (sync_to_google_sheets []
        [(handle_entry "e1" "in" ⟨2024, 1, 1, 9, 0, 0, 0⟩ (FileRead.ok []) [] [] false "net").entry]
        [] false "net").success = false ∧
    (handle_entry "e1" "in" ⟨2024, 1, 1, 9, 0, 0, 0⟩ (FileRead.ok []) [] [] false "net").entry ∈
      (handle_entry "e1" "in" ⟨2024, 1, 1, 9, 0, 0, 0⟩ (FileRead.ok []) [] [] false "net").savedLog ∧
    Effect.reportWarning "Check-in/out has been recorded locally, but the online sync failed." ∈
      (handle_entry "e1" "in" ⟨2024, 1, 1, 9, 0, 0, 0⟩ (FileRead.ok []) [] [] false "net").trace :=
  ⟨by decide,
    (handle_entry_local_first "e1" "in" ⟨2024, 1, 1, 9, 0, 0, 0⟩ (FileRead.ok []) [] [] false
      "net").2.2 (by decide)⟩

/-- Claim C7: an incremental sync of a non-empty batch (append call succeeding)
stages exactly one row per entry — a possible header plus the image of the
batch under `buildRow` — and appends them all; an entry whose timestamp does
not parse contributes exactly one row made of its raw field values, and the
remaining entries are still formatted and included. -/
theorem sync_row_fallback_batch (mirror : List (List String)) (entries : List TimeEntry)
    (ed : EmployeeDir) (appendErr : String) (h : entries ≠ []) :
    let o := sync_to_google_sheets mirror entries ed true appendErr
    o.appendCalled = true ∧ o.success = true ∧
    o.staged = (if mirror.isEmpty then [headerRow] else []) ++ entries.map (buildRow ed) ∧
    o.staged.length = (if mirror.isEmpty then 1 else 0) + entries.length ∧
    (∀ e ∈ entries, fromisoformat e.timestamp = none →
      buildRow ed e = [e.employeeId, lookupName ed e.employeeId, e.timestamp, e.type]) := by
  match entries with
  | [] => exact absurd rfl h
  | e :: es =>
      have hcond : ((if mirror.isEmpty then [headerRow] else []) ++
          (e :: es).map (buildRow ed)).length ≠ (if mirror.isEmpty then 1 else 0) := by
        cases mirror <;> simp
      have key : sync_to_google_sheets mirror (e :: es) ed true appendErr =
          ⟨true, "Synced " ++ pyStr (e :: es).length ++ " entries to Google Sheets.", true,
            (if mirror.isEmpty then [headerRow] else []) ++ (e :: es).map (buildRow ed)⟩ := by
        unfold sync_to_google_sheets
        rw [if_neg hcond, if_pos rfl]
      refine ⟨?_, ?_, ?_, ?_, fun x _ hfx => by simp [buildRow, formatEntry, hfx]⟩
      · rw [key]
      · rw [key]
      · rw [key]
      · rw [key]
        cases mirror with
        | nil =>
            simp
            omega
        | cons r rows => simp

theorem sync_row_fallback_batch_witness :
    ([(⟨"e9", "not-a-date", "in"⟩ : TimeEntry), ⟨"e1", "2024-01-01T09:00:00", "in"⟩] ≠
        ([] : List TimeEntry)) ∧
    (let o := sync_to_google_sheets []
        [(⟨"e9", "not-a-date", "in"⟩ : TimeEntry), ⟨"e1", "2024-01-01T09:00:00", "in"⟩]
        [("e1", ⟨"Alice", "SECRET"⟩)] true "boom"
     o.appendCalled = true ∧ o.success = true ∧
     o.staged = (if ([] : List (List String)).isEmpty then [headerRow] else []) ++
        [(⟨"e9", "not-a-date", "in"⟩ : TimeEntry), ⟨"e1", "2024-01-01T09:00:00", "in"⟩].map
          (buildRow [("e1", ⟨"Alice", "SECRET"⟩)]) ∧
     o.staged.length = (if ([] : List (List String)).isEmpty then 1 else 0) +
        [(⟨"e9", "not-a-date", "in"⟩ : TimeEntry), ⟨"e1", "2024-01-01T09:00:00", "in"⟩].length ∧
     (∀ e ∈ [(⟨"e9", "not-a-date", "in"⟩ : TimeEntry), ⟨"e1", "2024-01-01T09:00:00", "in"⟩],
        fromisoformat e.timestamp = none →
          buildRow [("e1", ⟨"Alice", "SECRET"⟩)] e =
            [e.employeeId, lookupName [("e1", ⟨"Alice", "SECRET"⟩)] e.employeeId,
              e.timestamp, e.type])) :=
  ⟨by decide,
    sync_row_fallback_batch []
      [(⟨"e9", "not-a-date", "in"⟩ : TimeEntry), ⟨"e1", "2024-01-01T09:00:00", "in"⟩]
      [("e1", ⟨"Alice", "SECRET"⟩)] "boom" (by decide)⟩

/-- Claim C8, counterexample: a check action whose `datetime.now()` carries a
nonzero microsecond field (the generic case for a live clock) produces a
timestamp with a sub-second component, refuting second precision: the
recorded string is `2024-01-01T09:00:00.123456`, which contains a
fractional-seconds dot. -/
theorem entry_timestamp_subsecond_cex :
    (handle_entry "e1" "in" ⟨2024, 1, 1, 9, 0, 0, 123456⟩ (FileRead.ok []) [] [] true
        "").entry.timestamp = "2024-01-01T09:00:00.123456" ∧
    '.' ∈ (handle_entry "e1" "in" ⟨2024, 1, 1, 9, 0, 0, 123456⟩ (FileRead.ok []) [] [] true
        "").entry.timestamp.data :=
  ⟨rfl, by decide⟩

/-- Claim C8, amended: the timestamp of every entry `handle_entry` creates is
exactly `datetime.now().isoformat()`, which is ISO-8601 and carries a
microsecond (sub-second) component precisely when the clock's microsecond
field is nonzero — second precision holds only in that measure-zero case. -/
theorem entry_timestamp_isoformat (employee_id entry_type : String) (now : PyDatetime)
    (localFile : FileRead (List TimeEntry)) (mirror : List (List String)) (ed : EmployeeDir)
    (appendOk : Bool) (appendErr : String) :
    (handle_entry employee_id entry_type now localFile mirror ed appendOk
        appendErr).entry.timestamp = isoformat now ∧
    ('.' ∈ (isoformat now).data ↔ now.microsecond ≠ 0) := by
  refine ⟨rfl, ?_⟩
  show '.' ∈ isoformatChars now ↔ now.microsecond ≠ 0
  unfold isoformatChars
  by_cases hus : now.microsecond = 0
  · simp only [hus, if_true]
    constructor
    · intro hmem
      exfalso
      simp only [List.append_nil, List.mem_append, List.mem_singleton] at hmem
      rcases hmem with ((((((((((h | h) | h) | h) | h) | h) | h) | h) | h) | h) | h) <;>
        first
          | exact dot_not_mem_padChars _ _ h
          | exact absurd h (by decide)
    · intro hne
      exact absurd rfl hne
  · simp only [hus, if_false]
    constructor
    · intro _
      exact hus
    · intro _
      refine List.mem_append_right _ ?_
      exact List.mem_cons_self _ _

/-- Claim C9, counterexample: for the employee identifier `a/b`, `quote` leaves the
reserved character `/` unencoded, so the provisioning URI contains the
identifier's reserved character unencoded, refuting the claim that reserved
URI characters in the identifier never appear unencoded. -/
theorem provisioning_uri_slash_cex :
    pyQuote "a/b" = "a/b" ∧ reservedUriChar '/' = true ∧ '/' ∈ (pyQuote "a/b").data ∧
    otpProvisioningUri "a/b" "SECRETBASE32" =
      "otpauth://totp/EmployeeCheckin:a/b?secret=SECRETBASE32&issuer=EmployeeCheckin" := by
  refine ⟨by decide, by decide, by decide, rfl⟩

/-- Claim C9, amended: the provisioning URI is exactly
`otpauth://totp/EmployeeCheckin:<quote(employeeId)>?secret=<secret>&issuer=EmployeeCheckin`,
and the encoded identifier contains no reserved URI character other than
`/`, which `quote` keeps in its default safe set. -/
theorem provisioning_uri_encoding (employee_id secret : String) :
    otpProvisioningUri employee_id secret =
      "otpauth://totp/EmployeeCheckin:" ++ pyQuote employee_id ++ "?secret=" ++ secret ++
        "&issuer=EmployeeCheckin" ∧
    (∀ c ∈ (pyQuote employee_id).data, reservedUriChar c = true → c = '/') := by
  refine ⟨rfl, ?_⟩
  intro c hc hres
  have hc' : c ∈ (employee_id.data.flatMap
      (fun ch => (String.utf8EncodeChar ch).map UInt8.toNat)).flatMap quoteByte := hc
  obtain ⟨b, hb, hcb⟩ := List.mem_flatMap.mp hc'
  obtain ⟨ch, _, hbch⟩ := List.mem_flatMap.mp hb
  obtain ⟨u, _, rfl⟩ := List.mem_map.mp hbch
  have hb256 : u.toNat < 256 := UInt8.toNat_lt u
  exact quoteByte_reserved u.toNat hb256 c hcb hres

theorem provisioning_uri_encoding_witness :
    (otpProvisioningUri "max mustermann" "JBSWY3DPEHPK3PXP" =
      "otpauth://totp/EmployeeCheckin:" ++ pyQuote "max mustermann" ++
        "?secret=" ++ "JBSWY3DPEHPK3PXP" ++ "&issuer=EmployeeCheckin") ∧
    (∀ c ∈ (pyQuote "max mustermann").data, reservedUriChar c = true → c = '/') :=
  provisioning_uri_encoding "max mustermann" "JBSWY3DPEHPK3PXP"

/-- Claim C3, counterexample: six-digit HOTP codes of nearby steps can collide, and
then a code generated more than one step away is still accepted.  For the
secret `UIINV5PKC3VICLSQ` the codes of steps 19797092 and 19797093 are both
`544760`, so the code of step `T = 19797092` still validates at time step
`T + 2`, refuting the claim that every code generated more than one step
from the current time is rejected. -/
theorem totp_skew_collision_cex :
    b32decode "UIINV5PKC3VICLSQ" = some [162, 16, 218, 245, 234, 22, 234, 129, 46, 80] ∧
    codeStr [162, 16, 218, 245, 234, 22, 234, 129, 46, 80] 19797092 = "544760" ∧
    valid_totp "544760" "UIINV5PKC3VICLSQ" (30 * (19797092 + 2)) = true :=
  ⟨by decide, by decide, by decide⟩

/-- Claim C3, amended: for every secret that base32-decodes and every time step
`T`, the validator unconditionally accepts the codes of the current step and
of both immediately adjacent steps at time step `T`; and the code of step
`T` is rejected at time step `T + 2` provided it differs from the codes of
the three steps inside the acceptance window there (`T+1`, `T+2`, `T+3`) —
without that proviso, six-digit code collisions can defeat the rejection. -/
theorem valid_totp_window (secret : String) (key : List Nat) (T : Nat)
    (hsec : b32decode secret = some key) :
    valid_totp (codeStr key T) secret (30 * T) = true ∧
    valid_totp (codeStr key (T - 1)) secret (30 * T) = true ∧
    valid_totp (codeStr key (T + 1)) secret (30 * T) = true ∧
    (hotp key T ≠ hotp key (T + 1) → hotp key T ≠ hotp key (T + 2) →
      hotp key T ≠ hotp key (T + 3) →
      valid_totp (codeStr key T) secret (30 * (T + 2)) = false) := by
  have hdiv : ∀ m : Nat, 30 * m / 30 = m := fun m => Nat.mul_div_cancel_left m (by norm_num)
  unfold valid_totp
  rw [hsec]
  simp only [hdiv, codeStr_possible, tokenVal_codeStr, Bool.true_and]
  refine ⟨?_, ?_, ?_, ?_⟩
  · simp
  · simp
  · simp
  · intro h1 h2 h3
    have e1 : (hotp key T == hotp key (T + 2 - 1)) = false := by
      rw [show T + 2 - 1 = T + 1 from rfl]
      exact beq_eq_false_iff_ne.mpr h1
    have e2 : (hotp key T == hotp key (T + 2)) = false := beq_eq_false_iff_ne.mpr h2
    have e3 : (hotp key T == hotp key (T + 2 + 1)) = false := by
      rw [show T + 2 + 1 = T + 3 from rfl]
      exact beq_eq_false_iff_ne.mpr h3
    simp [e1, e2, e3]
    exact h1

theorem valid_totp_window_witness :
    b32decode "JBSWY3DPEHPK3PXP" = some [72, 101, 108, 108, 111, 33, 222, 173, 190, 239] ∧
    (valid_totp (codeStr [72, 101, 108, 108, 111, 33, 222, 173, 190, 239] 5) "JBSWY3DPEHPK3PXP"
        (30 * 5) = true ∧
      valid_totp (codeStr [72, 101, 108, 108, 111, 33, 222, 173, 190, 239] (5 - 1))
        "JBSWY3DPEHPK3PXP" (30 * 5) = true ∧
      valid_totp (codeStr [72, 101, 108, 108, 111, 33, 222, 173, 190, 239] (5 + 1))
        "JBSWY3DPEHPK3PXP" (30 * 5) = true ∧
      valid_totp (codeStr [72, 101, 108, 108, 111, 33, 222, 173, 190, 239] 5) "JBSWY3DPEHPK3PXP"
        (30 * (5 + 2)) = false) :=
  ⟨by decide,
    (valid_totp_window "JBSWY3DPEHPK3PXP" [72, 101, 108, 108, 111, 33, 222, 173, 190, 239] 5
      (by decide)).1,
    (valid_totp_window "JBSWY3DPEHPK3PXP" [72, 101, 108, 108, 111, 33, 222, 173, 190, 239] 5
      (by decide)).2.1,
    (valid_totp_window "JBSWY3DPEHPK3PXP" [72, 101, 108, 108, 111, 33, 222, 173, 190, 239] 5
      (by decide)).2.2.1,
    (valid_totp_window "JBSWY3DPEHPK3PXP" [72, 101, 108, 108, 111, 33, 222, 173, 190, 239] 5
      (by decide)).2.2.2 (by decide) (by decide) (by decide)⟩

end EmployeeCheckin



